import Mathlib

/-!
Verification development for the `social/backends/oauth.py` module of
python-social-auth: a shallow embedding of the OAuth1 and OAuth2 backend
logic (error classification, pending-token matching, CSRF-state validation,
extra-data extraction) together with theorems about its behaviour.

Callback data and provider responses are modelled as association lists with
string keys (Python dicts with unique keys); Python truthiness of optional
string values is modelled explicitly.
-/

set_option autoImplicit false

deriving instance DecidableEq for Except

/-- A Python dict with string keys and string values (callback data,
provider responses), modelled as an association list with unique keys. -/
abbrev Dict := List (String × String)

/-- A Python dict with string keys and optional string values (the
extra-data result dict, whose values may be `None`). -/
abbrev EDict := List (String × Option String)

/-- `d.get(k)`: first-match association-list lookup. -/
def alookup {α : Type} : List (String × α) → String → Option α
  | [], _ => none
  | (k', v) :: rest, k => if k' = k then some v else alookup rest k

/-- `d[k] = v`: replace the value at key `k` in place, or append the pair
at the end when the key is absent (Python dict assignment, insertion order
preserved). -/
def aset {α : Type} : List (String × α) → String → α → List (String × α)
  | [], k, v => [(k, v)]
  | (k', v') :: rest, k, v =>
      if k' = k then (k, v) :: rest else (k', v') :: aset rest k v

/-- `d.get(k, default)`. -/
def dget (d : Dict) (k : String) (dflt : String) : String :=
  (alookup d k).getD dflt

/-- Python truthiness of an optional string: `None` and `""` are falsy. -/
def truthy : Option String → Bool
  | none => false
  | some s => !(s == "")

/-- Python `a or b` on two optional strings (as in
`data.get("state") or data.get("redirect_state")`). -/
def pyOr (a b : Option String) : Option String :=
  match a with
  | some s => if s = "" then b else some s
  | none => b

/-- Python `a or b` where `a` is optional and `b` is a string (as in
`data.get("error_description") or data["error"]`). -/
def pyOrStr (a : Option String) (b : String) : String :=
  match a with
  | some s => if s = "" then b else s
  | none => b

/-- The failure outcomes of the backends.  The first seven constructors are
the library's own exception taxonomy (`AuthCanceled`, `AuthFailed`,
`AuthUnknownError`, `AuthMissingParameter`, `AuthStateMissing`,
`AuthStateForbidden`, `AuthTokenError`); the last three model Python
exceptions that escape the backend uncaught: a bare `KeyError`, a non-400
`requests.HTTPError`, and any other transport exception re-raised
unmodified. -/
inductive AuthError where
  | canceled (msg : String)
  | failed (msg : String)
  | unknownError (msg : String)
  | missingParameter (param : String)
  | stateMissing (param : String)
  | stateForbidden
  | tokenError (msg : String)
  | pyKeyError (key : String)
  | propagatedHttp (status : Nat)
  | propagatedOther (msg : String)
  deriving DecidableEq

/-- Split a character list at every occurrence of `c`. -/
def splitListOn (c : Char) : List Char → List (List Char)
  | [] => [[]]
  | x :: xs =>
      let r := splitListOn c xs
      if x = c then [] :: r
      else
        match r with
        | [] => [[x]]
        | h :: t => (x :: h) :: t

/-- Split a character list at the first occurrence of a given character;
`none` when the character does not occur. -/
def splitFirst (c : Char) : List Char → Option (List Char × List Char)
  | [] => none
  | x :: xs =>
      if x = c then some ([], xs)
      else
        match splitFirst c xs with
        | none => none
        | some (k, v) => some (x :: k, v)

/-- Modelled from the spec: `social.utils.parse_qs` (the repository's
querystring parser, not under `src/`) parses the string-encoded token
entries into structured form.  Components without a `=` or with an empty
value are dropped (the underlying urllib parser drops blank values by
default) and repeated keys collapse to their first value; percent-escapes
are not modelled (all concrete inputs below are escape-free). -/
def parse_qs (s : String) : Dict :=
  (splitListOn '&' s.data).filterMap fun comp =>
    match splitFirst '=' comp with
    | some (k, v) => if v = [] then none else some (String.mk k, String.mk v)
    | none => none

/-- Python `list(set(xs) - set([y]))` on a list of strings: deduplicate and
drop every copy of `y`.  Python's set iteration order is unspecified; this
model fixes it deterministically with `List.dedup` (which keeps the last
copy of each duplicated value, preserving relative order). -/
def pySetDiff (xs : List String) (y : String) : List String :=
  xs.dedup.filter (fun t => t ≠ y)

namespace BaseOAuth1

/-- `BaseOAuth1.process_error` (oauth.py lines 99-103): an `oauth_problem`
key valued `user_refused` raises `AuthCanceled`; any other `oauth_problem`
value raises `AuthUnknownError`. Returns `none` when no error is raised. -/
def process_error (data : Dict) : Option AuthError :=
  match alookup data "oauth_problem" with
  | none => none
  | some p =>
      if p = "user_refused" then some (.canceled "User refused the access")
      else some (.unknownError ("Error was " ++ p))

/-- The predicate of the pending-token scan in `BaseOAuth1.auth_complete`:
the entry, parsed as a querystring, carries `oauth_token` equal to the
callback token id. -/
def tokenMatches (data_token : String) (t : String) : Bool :=
  alookup (parse_qs t) "oauth_token" == some data_token

/-- `BaseOAuth1.auth_complete`, lines 105-128: the error check, the
pending-token lookup and the set-difference removal.  Tokens stored by
`auth_url` are the raw string bodies returned by the provider, so the
session list is a list of strings (the `isinstance(..., dict)` branch is
for entries that are already parsed and cannot arise from `auth_url`).
On success, returns the updated session list together with the parsed
matched token; the subsequent access-token exchange (lines 130-137) and
`do_auth` are the next stage of the flow and are not part of this
function's result. -/
def auth_complete_tokens (data : Dict) (unauthed_tokens : List String) :
    Except AuthError (List String × Dict) :=
  match process_error data with
  | some e => .error e
  | none =>
      if unauthed_tokens = [] then .error (.tokenError "Missing unauthorized token")
      else
        let data_token := dget data "oauth_token" "no-token"
        match unauthed_tokens.find? (tokenMatches data_token) with
        | some t => .ok (pySetDiff unauthed_tokens t, parse_qs t)
        | none => .error (.tokenError "Incorrect tokens")

end BaseOAuth1

namespace OAuthAuth

/-- One entry of `EXTRA_DATA` / the `EXTRA_DATA` setting.  Python entries
are bare strings or tuples of one, two or three fields
(`(name)`, `(name, alias)`, `(name, alias, discard)`); a bare string is
wrapped into a one-tuple by `extra_data`.  Heterogeneous tuples of any
other size carry nothing the code ever reads, so they are modelled by
their size alone. -/
inductive EDEntry where
  | str (name : String)
  | tup1 (name : String)
  | tup2 (name aliasKey : String)
  | tup3 (name aliasKey : String) (discard : Bool)
  | malformed (size : Nat)
  deriving DecidableEq

/-- The alias key under which an entry stores its value (`alias` defaults
to `name`); `none` for malformed entries, which store nothing. -/
def entryAlias : EDEntry → Option String
  | .str n => some n
  | .tup1 n => some n
  | .tup2 _ a => some a
  | .tup3 _ a _ => some a
  | .malformed _ => none

/-- The body of `OAuthAuth.extra_data`'s loop (oauth.py lines 41-56) for a
single entry: tuples of size 1-3 read `name` from the response and store
the value under `alias` unless `discard` is set and the value is falsy;
any other size falls through the `1 <= size <= 3` guard and leaves the
dict untouched. -/
def applyEntry (response : Dict) (data : EDict) : EDEntry → EDict
  | .str n => aset data n (alookup response n)
  | .tup1 n => aset data n (alookup response n)
  | .tup2 n a => aset data a (alookup response n)
  | .tup3 n a discard =>
      let value := alookup response n
      if discard && !truthy value then data
      else aset data a value
  | .malformed _ => data

/-- `OAuthAuth.extra_data` (oauth.py lines 35-57): seed the result with
`access_token` from the response (empty string when absent), then fold the
concatenation of the class `EXTRA_DATA` (`None` → `[]`) and the
`EXTRA_DATA` setting over the entry processor. -/
def extra_data (EXTRA_DATA : Option (List EDEntry))
    (settingExtraData : List EDEntry) (response : Dict) : EDict :=
  let names := EXTRA_DATA.getD [] ++ settingExtraData
  names.foldl (applyEntry response)
    [("access_token", some (dget response "access_token" ""))]

end OAuthAuth

/-- The exceptions the OAuth2 token-exchange request can raise, as
distinguished by the `try` in `BaseOAuth2.auth_complete`:
a `requests.HTTPError` carrying a status code, a `KeyError` raised inside
`request_access_token`, or any other (transport) exception. -/
inductive ReqExc where
  | httpError (status : Nat)
  | keyError (key : String)
  | otherExc (msg : String)
  deriving DecidableEq

namespace BaseOAuth2

/-- `BaseOAuth2.state_token` (oauth.py lines 223-225): ask the strategy
for a random string of length 32.  The strategy's generator is external;
it is passed in as `random_string`. -/
def state_token (random_string : Nat → String) : String :=
  random_string 32

/-- The state-slot handling of `BaseOAuth2.auth_url` (oauth.py lines
246-260): when either CSRF toggle is on, reuse the session state if the
slot is non-`None`, otherwise mint `state_token` and store it; with both
toggles off the state is `None` and the slot is untouched.  Returns the
state used for the URL parameters together with the new slot value.  The
remainder of `auth_url` (lines 262-270) only assembles the redirect URL
from this state and is not needed by the state-slot claims. -/
def auth_url_state (STATE_PARAMETER REDIRECT_STATE : Bool)
    (slot : Option String) (random_string : Nat → String) :
    Option String × Option String :=
  if STATE_PARAMETER || REDIRECT_STATE then
    match slot with
    | some s => (some s, some s)
    | none =>
        let s := state_token random_string
        (some s, some s)
  else (none, slot)

/-- `BaseOAuth2.validate_state` (oauth.py lines 272-287): with both CSRF
toggles off, return `None`; otherwise read the stored state and, only when
it is truthy, require a truthy `state` or `redirect_state` callback value
(`AuthMissingParameter` otherwise), re-check the stored state
(`AuthStateMissing`; unreachable under the enclosing truthiness guard) and
compare the two (`AuthStateForbidden` on mismatch).  A falsy stored state
is returned as-is without any check. -/
def validate_state (STATE_PARAMETER REDIRECT_STATE : Bool)
    (stored : Option String) (data : Dict) :
    Except AuthError (Option String) :=
  if !STATE_PARAMETER && !REDIRECT_STATE then .ok none
  else if truthy stored then
    let request_state := pyOr (alookup data "state") (alookup data "redirect_state")
    if !truthy request_state then .error (.missingParameter "state")
    else if !truthy stored then .error (.stateMissing "state")
    else if request_state ≠ stored then .error .stateForbidden
    else .ok stored
  else .ok stored

/-- `BaseOAuth2.process_error` (oauth.py lines 306-313): a truthy `error`
value of `denied` or `access_denied` raises `AuthCanceled` with
`error_description` (default empty); any other truthy `error` raises
`AuthFailed` with `error_description or error`; otherwise a present
`denied` key raises `AuthCanceled` with its value. -/
def process_error (data : Dict) : Option AuthError :=
  if truthy (alookup data "error") then
    let e := dget data "error" ""
    if e = "denied" ∨ e = "access_denied" then
      some (.canceled (dget data "error_description" ""))
    else
      some (.failed (pyOrStr (alookup data "error_description") e))
  else
    match alookup data "denied" with
    | some v => some (.canceled v)
    | none => none

/-- `BaseOAuth2.auth_complete` (oauth.py lines 315-334): run
`process_error` on the callback data; validate the CSRF state (its
exceptions are neither `HTTPError` nor `KeyError`, so they propagate);
inspect the token-exchange outcome — `HTTPError` with status 400 raises
`AuthCanceled` (no message), any other status is re-raised, a `KeyError`
raised inside the request raises `AuthUnknownError`, any other exception
propagates; on a response body, run `process_error` again and finally
subscript `response["access_token"]` outside the `try`, so a missing
field escapes as a bare `KeyError`.  On success, returns the parsed
response with the access token, which the real code hands to `do_auth`. -/
def auth_complete (STATE_PARAMETER REDIRECT_STATE : Bool)
    (stored : Option String) (data : Dict)
    (exchange : Except ReqExc Dict) : Except AuthError (Dict × String) :=
  match process_error data with
  | some e => .error e
  | none =>
      match validate_state STATE_PARAMETER REDIRECT_STATE stored data with
      | .error e => .error e
      | .ok _state =>
          match exchange with
          | .error (.httpError status) =>
              if status = 400 then .error (.canceled "")
              else .error (.propagatedHttp status)
          | .error (.keyError _) => .error (.unknownError "")
          | .error (.otherExc msg) => .error (.propagatedOther msg)
          | .ok response =>
              match process_error response with
              | some e => .error e
              | none =>
                  match alookup response "access_token" with
                  | some tok => .ok (response, tok)
                  | none => .error (.pyKeyError "access_token")

/-- `response.update(other)`: Python dict update, existing keys keep their
position with the new value, new keys are appended in order. -/
def dict_update (d other : Dict) : Dict :=
  other.foldl (fun acc kv => aset acc kv.1 kv.2) d

/-- The response merge of `BaseOAuth2.do_auth` (oauth.py lines 336-342):
`response = kwargs.get("response") or {}; response.update(data or {})`,
where `data` is what the `user_data` hook returned.  Returns the merged
response handed to `strategy.authenticate`. -/
def do_auth_response (response : Option Dict) (data : Option Dict) : Dict :=
  dict_update (response.getD []) (data.getD [])

end BaseOAuth2

/-! Helper lemmas about the association-list primitives. -/

theorem alookup_aset_self {α : Type} (d : List (String × α)) (k : String) (v : α) :
    alookup (aset d k v) k = some v := by
  induction d with
  | nil => simp [aset, alookup]
  | cons p rest ih =>
      obtain ⟨k', v'⟩ := p
      by_cases h : k' = k <;> simp [aset, alookup, h, ih]

theorem alookup_aset_ne {α : Type} (d : List (String × α)) (k k' : String) (v : α)
    (h : k' ≠ k) : alookup (aset d k v) k' = alookup d k' := by
  have hkk : k ≠ k' := Ne.symm h
  induction d with
  | nil => simp [aset, alookup, hkk]
  | cons p rest ih =>
      obtain ⟨k1, v1⟩ := p
      by_cases h1 : k1 = k
      · subst h1
        simp [aset, alookup, hkk]
      · simp [aset, alookup, h1, ih]

theorem isSome_alookup_aset {α : Type} (d : List (String × α)) (k k' : String) (v : α)
    (h : (alookup d k').isSome) : (alookup (aset d k v) k').isSome := by
  by_cases hk : k' = k
  · subst hk; simp [alookup_aset_self]
  · rw [alookup_aset_ne d k k' v hk]; exact h

theorem filter_ne_eq_erase :
    ∀ (l : List String), l.Nodup → ∀ a : String,
      l.filter (fun x => x ≠ a) = l.erase a := by
  intro l
  induction l with
  | nil => intro _ a; rfl
  | cons x xs ih =>
      intro hnd a
      have hx : x ∉ xs := (List.nodup_cons.mp hnd).1
      have hxs : xs.Nodup := (List.nodup_cons.mp hnd).2
      by_cases h : x = a
      · subst h
        simp [List.erase_cons]
        intro a ha hax
        exact hx (hax ▸ ha)
      · have ihh := ih hxs a
        simp [List.erase_cons, h, Ne.symm h]
        simpa using ihh

/-! ### C1, C9: OAuth1 pending-token matching in `auth_complete` -/

/-- C1 (amended): for OAuth1 `auth_complete`, when the callback carries no
`oauth_problem` field and the stored pending entries are pairwise
distinct: with zero pending tokens it fails with `AuthTokenError`; when
some entry's token id equals the callback token id, the first such entry
is removed — exactly that entry, the other N−1 left unchanged — and its
parsed form is consumed; when no entry matches it fails with
`AuthTokenError`. -/
theorem C1_oauth1_token_matching (data : Dict) (entries : List String)
    (hprob : alookup data "oauth_problem" = none) (hnd : entries.Nodup) :
    (entries = [] →
      BaseOAuth1.auth_complete_tokens data entries =
        .error (.tokenError "Missing unauthorized token"))
    ∧ (∀ t, entries.find?
          (BaseOAuth1.tokenMatches (dget data "oauth_token" "no-token")) = some t →
        BaseOAuth1.auth_complete_tokens data entries =
          .ok (entries.erase t, parse_qs t))
    ∧ (entries ≠ [] →
        (∀ t ∈ entries,
          alookup (parse_qs t) "oauth_token" ≠
            some (dget data "oauth_token" "no-token")) →
        BaseOAuth1.auth_complete_tokens data entries =
          .error (.tokenError "Incorrect tokens")) := by
  refine ⟨?_, ?_, ?_⟩
  · intro h
    subst h
    simp [BaseOAuth1.auth_complete_tokens, BaseOAuth1.process_error, hprob]
  · intro t hf
    have hne : entries ≠ [] := by
      intro h; subst h; simp [List.find?] at hf
    have hrw : pySetDiff entries t = entries.erase t := by
      rw [pySetDiff, List.dedup_eq_self.mpr hnd, filter_ne_eq_erase entries hnd t]
    simp [BaseOAuth1.auth_complete_tokens, BaseOAuth1.process_error, hprob, hne, hf, hrw]
  · intro hne hnomatch
    have hf : entries.find?
        (BaseOAuth1.tokenMatches (dget data "oauth_token" "no-token")) = none := by
      apply List.find?_eq_none.mpr
      intro x hx
      simp only [BaseOAuth1.tokenMatches, beq_iff_eq]
      exact hnomatch x hx
    simp [BaseOAuth1.auth_complete_tokens, BaseOAuth1.process_error, hprob, hne, hf]

/-- Witness for C1: two distinct pending tokens; completing with the
second token's id consumes exactly that entry and leaves the first. -/
theorem C1_oauth1_token_matching_witness :
    BaseOAuth1.auth_complete_tokens [("oauth_token", "b")]
      ["oauth_token=a", "oauth_token=b"] =
      .ok (["oauth_token=a"], [("oauth_token", "b")]) := by
  have h := (C1_oauth1_token_matching [("oauth_token", "b")]
      ["oauth_token=a", "oauth_token=b"] (by decide) (by decide)).2.1
      "oauth_token=b" (by decide)
  rw [h]
  decide

/-- Counterexample to C1 as stated: with N = 2 pending tokens that are
equal as stored values and a callback matching them, the set-difference
removal `list(set(tokens) - set([token]))` drops both copies: the stored
list ends up with 0 entries, not N−1 = 1. -/
theorem C1_counterexample :
    BaseOAuth1.auth_complete_tokens [("oauth_token", "a")]
      ["oauth_token=a", "oauth_token=a"] = .ok ([], [("oauth_token", "a")]) ∧
    ([] : List String).length ≠
      (["oauth_token=a", "oauth_token=a"] : List String).length - 1 := by
  constructor
  · decide
  · decide

/-- C9: in OAuth1 `auth_complete`, a callback with no `oauth_token`
parameter is matched using the sentinel `"no-token"`: with a non-empty
pending list it fails with `AuthTokenError` unless some entry's
`oauth_token` value is literally `"no-token"`, in which case that entry is
matched and consumed. -/
theorem C9_no_token_sentinel (data : Dict) (entries : List String)
    (hprob : alookup data "oauth_problem" = none)
    (htok : alookup data "oauth_token" = none)
    (hne : entries ≠ []) :
    ((∀ t ∈ entries, alookup (parse_qs t) "oauth_token" ≠ some "no-token") →
        BaseOAuth1.auth_complete_tokens data entries =
          .error (.tokenError "Incorrect tokens"))
    ∧ (∀ t, entries.find? (BaseOAuth1.tokenMatches "no-token") = some t →
        BaseOAuth1.auth_complete_tokens data entries =
          .ok (pySetDiff entries t, parse_qs t)) := by
  have hdt : dget data "oauth_token" "no-token" = "no-token" := by
    simp [dget, htok]
  constructor
  · intro hnomatch
    have hf : entries.find? (BaseOAuth1.tokenMatches "no-token") = none := by
      apply List.find?_eq_none.mpr
      intro x hx
      simp only [BaseOAuth1.tokenMatches, beq_iff_eq]
      exact hnomatch x hx
    simp [BaseOAuth1.auth_complete_tokens, BaseOAuth1.process_error, hprob, hne, hdt, hf]
  · intro t hf
    simp [BaseOAuth1.auth_complete_tokens, BaseOAuth1.process_error, hprob, hne, hdt, hf]

/-- Witness for C9: a callback without `oauth_token` consumes the pending
entry whose token id is literally `no-token`. -/
theorem C9_no_token_sentinel_witness :
    BaseOAuth1.auth_complete_tokens [("oauth_verifier", "v")]
      ["oauth_token=x", "oauth_token=no-token"] =
      .ok (["oauth_token=x"], [("oauth_token", "no-token")]) := by
  have h := (C9_no_token_sentinel [("oauth_verifier", "v")]
      ["oauth_token=x", "oauth_token=no-token"] (by decide) (by decide)
      (by decide)).2 "oauth_token=no-token" (by decide)
  rw [h]
  decide

/-! ### C2: OAuth2 token-exchange error handling in `auth_complete` -/

/-- C2 (amended): for OAuth2 `auth_complete`, once the callback carries no
provider error and state validation succeeds: an exchange failing with
HTTP 400 fails with `AuthCanceled`; any other HTTP status, and any
non-`HTTPError`/non-`KeyError` transport exception, propagates unchanged;
a `KeyError` raised inside the exchange request fails with
`AuthUnknownError`; but a token response missing `access_token` escapes
with an uncaught `KeyError` (the subscript sits outside the `try`), not
`AuthUnknownError`; a response carrying `access_token` proceeds. -/
theorem C2_token_exchange_errors (sp rs : Bool) (stored : Option String)
    (data : Dict) (st : Option String)
    (hd : BaseOAuth2.process_error data = none)
    (hv : BaseOAuth2.validate_state sp rs stored data = .ok st) :
    (BaseOAuth2.auth_complete sp rs stored data (.error (.httpError 400)) =
        .error (.canceled ""))
    ∧ (∀ s, s ≠ 400 →
        BaseOAuth2.auth_complete sp rs stored data (.error (.httpError s)) =
          .error (.propagatedHttp s))
    ∧ (∀ m, BaseOAuth2.auth_complete sp rs stored data (.error (.otherExc m)) =
        .error (.propagatedOther m))
    ∧ (∀ k, BaseOAuth2.auth_complete sp rs stored data (.error (.keyError k)) =
        .error (.unknownError ""))
    ∧ (∀ resp, BaseOAuth2.process_error resp = none →
        alookup resp "access_token" = none →
        BaseOAuth2.auth_complete sp rs stored data (.ok resp) =
          .error (.pyKeyError "access_token"))
    ∧ (∀ resp tok, BaseOAuth2.process_error resp = none →
        alookup resp "access_token" = some tok →
        BaseOAuth2.auth_complete sp rs stored data (.ok resp) = .ok (resp, tok)) := by
  refine ⟨?_, ?_, ?_, ?_, ?_, ?_⟩
  · simp [BaseOAuth2.auth_complete, hd, hv]
  · intro s hs
    simp [BaseOAuth2.auth_complete, hd, hv, hs]
  · intro m
    simp [BaseOAuth2.auth_complete, hd, hv]
  · intro k
    simp [BaseOAuth2.auth_complete, hd, hv]
  · intro resp hr ha
    simp [BaseOAuth2.auth_complete, hd, hv, hr, ha]
  · intro resp tok hr ha
    simp [BaseOAuth2.auth_complete, hd, hv, hr, ha]

/-- Witness for C2: each exchange outcome at a concrete valid-state
input. -/
theorem C2_token_exchange_errors_witness :
    BaseOAuth2.auth_complete true true (some "s") [("state", "s")]
        (.error (.httpError 400)) = .error (.canceled "")
    ∧ BaseOAuth2.auth_complete true true (some "s") [("state", "s")]
        (.error (.httpError 500)) = .error (.propagatedHttp 500)
    ∧ BaseOAuth2.auth_complete true true (some "s") [("state", "s")]
        (.error (.otherExc "connection reset")) =
        .error (.propagatedOther "connection reset")
    ∧ BaseOAuth2.auth_complete true true (some "s") [("state", "s")]
        (.error (.keyError "access_token")) = .error (.unknownError "")
    ∧ BaseOAuth2.auth_complete true true (some "s") [("state", "s")]
        (.ok [("token_type", "bearer")]) = .error (.pyKeyError "access_token")
    ∧ BaseOAuth2.auth_complete true true (some "s") [("state", "s")]
        (.ok [("access_token", "tok")]) = .ok ([("access_token", "tok")], "tok") := by
  have h := C2_token_exchange_errors true true (some "s") [("state", "s")]
    (some "s") (by decide) (by decide)
  exact ⟨h.1, h.2.1 500 (by decide), h.2.2.1 "connection reset",
    h.2.2.2.1 "access_token", h.2.2.2.2.1 _ (by decide) (by decide),
    h.2.2.2.2.2 _ "tok" (by decide) (by decide)⟩

/-- Counterexample to C2 as stated: a successful exchange whose body lacks
`access_token` makes `auth_complete` fail with an uncaught Python
`KeyError` — `response["access_token"]` is evaluated outside the `try` —
not with `AuthUnknownError` as the claim requires. -/
theorem C2_counterexample :
    BaseOAuth2.auth_complete false false none [] (.ok [("token_type", "bearer")]) =
      .error (.pyKeyError "access_token") ∧
    BaseOAuth2.auth_complete false false none [] (.ok [("token_type", "bearer")]) ≠
      .error (.unknownError "") := by
  decide

/-! ### C3, C5: OAuth2 `validate_state` -/

/-- C3: evaluating `validate_state` at a present-but-empty stored state
with CSRF enabled and a callback `state` supplied: the stored empty state
is returned without any exception — `AuthStateMissing` is not raised (that
branch is guarded by the same truthiness test that already failed). -/
theorem C3_falsy_stored_state_returns :
    BaseOAuth2.validate_state true true (some "") [("state", "x")] = .ok (some "") ∧
    BaseOAuth2.validate_state true true (some "") [("state", "x")] ≠
      .error (.stateMissing "state") := by
  decide

/-- C5: `validate_state` returns no state when both CSRF toggles are off;
an echoed stored state (via `state` or `redirect_state`) validates and is
returned; a different non-empty callback value fails with
`AuthStateForbidden`; an absent (or empty) callback value while a
non-empty state is stored fails with `AuthMissingParameter`. -/
theorem C5_validate_state_cases :
    (∀ (stored : Option String) (d : Dict),
        BaseOAuth2.validate_state false false stored d = .ok none)
    ∧ (∀ (sp rs : Bool) (s : String) (d : Dict), (sp || rs) = true → s ≠ "" →
        pyOr (alookup d "state") (alookup d "redirect_state") = some s →
        BaseOAuth2.validate_state sp rs (some s) d = .ok (some s))
    ∧ (∀ (sp rs : Bool) (s r : String) (d : Dict), (sp || rs) = true →
        s ≠ "" → r ≠ "" → r ≠ s →
        pyOr (alookup d "state") (alookup d "redirect_state") = some r →
        BaseOAuth2.validate_state sp rs (some s) d = .error .stateForbidden)
    ∧ (∀ (sp rs : Bool) (s : String) (d : Dict), (sp || rs) = true → s ≠ "" →
        truthy (pyOr (alookup d "state") (alookup d "redirect_state")) = false →
        BaseOAuth2.validate_state sp rs (some s) d =
          .error (.missingParameter "state")) := by
  refine ⟨?_, ?_, ?_, ?_⟩
  · intro stored d
    simp [BaseOAuth2.validate_state]
  · intro sp rs s d hon hs hecho
    have hoff : ¬ (!sp && !rs) = true := by
      cases sp <;> cases rs <;> simp_all
    have hts : truthy (some s) = true := by simp [truthy, hs]
    have htr : truthy (pyOr (alookup d "state") (alookup d "redirect_state")) = true := by
      rw [hecho]; exact hts
    simp [BaseOAuth2.validate_state, hoff, hts, htr, hecho]
  · intro sp rs s r d hon hs hr hrs hecho
    have hoff : ¬ (!sp && !rs) = true := by
      cases sp <;> cases rs <;> simp_all
    have hts : truthy (some s) = true := by simp [truthy, hs]
    have htr : truthy (pyOr (alookup d "state") (alookup d "redirect_state")) = true := by
      rw [hecho]; simp [truthy, hr]
    have htrr : truthy (some r) = true := by simp [truthy, hr]
    simp [BaseOAuth2.validate_state, hoff, hts, htr, htrr, hecho, hrs]
  · intro sp rs s d hon hs hmiss
    have hoff : ¬ (!sp && !rs) = true := by
      cases sp <;> cases rs <;> simp_all
    have hts : truthy (some s) = true := by simp [truthy, hs]
    simp [BaseOAuth2.validate_state, hoff, hts, hmiss]

/-- Witness for C5: the four cases at concrete inputs; the echo case both
through `state` and through `redirect_state`. -/
theorem C5_validate_state_cases_witness :
    BaseOAuth2.validate_state false false (some "z") [("state", "w")] = .ok none
    ∧ BaseOAuth2.validate_state true true (some "s1") [("state", "s1")] =
        .ok (some "s1")
    ∧ BaseOAuth2.validate_state true true (some "s1") [("redirect_state", "s1")] =
        .ok (some "s1")
    ∧ BaseOAuth2.validate_state true true (some "s1") [("state", "s2")] =
        .error .stateForbidden
    ∧ BaseOAuth2.validate_state true true (some "s1") [] =
        .error (.missingParameter "state") := by
  have h := C5_validate_state_cases
  exact ⟨h.1 (some "z") [("state", "w")],
    h.2.1 true true "s1" [("state", "s1")] (by decide) (by decide) (by decide),
    h.2.1 true true "s1" [("redirect_state", "s1")] (by decide) (by decide) (by decide),
    h.2.2.1 true true "s1" "s2" [("state", "s2")] (by decide) (by decide)
      (by decide) (by decide) (by decide),
    h.2.2.2 true true "s1" [] (by decide) (by decide) (by decide)⟩

/-! ### C6: the `process_error` mappings of both flows -/

/-- C6: OAuth1 — `oauth_problem = user_refused` fails with `AuthCanceled`,
any other `oauth_problem` value with `AuthUnknownError`; OAuth2 — `error`
equal to `denied` or `access_denied` fails with `AuthCanceled` carrying
`error_description` (default empty), any other non-empty `error` with
`AuthFailed`, and a `denied` key without a truthy `error` with
`AuthCanceled` carrying its value. -/
theorem C6_process_error_mapping :
    (∀ d : Dict, alookup d "oauth_problem" = some "user_refused" →
        BaseOAuth1.process_error d = some (.canceled "User refused the access"))
    ∧ (∀ (d : Dict) (p : String), alookup d "oauth_problem" = some p →
        p ≠ "user_refused" →
        BaseOAuth1.process_error d = some (.unknownError ("Error was " ++ p)))
    ∧ (∀ (d : Dict) (e : String), alookup d "error" = some e →
        (e = "denied" ∨ e = "access_denied") →
        BaseOAuth2.process_error d =
          some (.canceled (dget d "error_description" "")))
    ∧ (∀ (d : Dict) (e : String), alookup d "error" = some e → e ≠ "" →
        e ≠ "denied" → e ≠ "access_denied" →
        BaseOAuth2.process_error d =
          some (.failed (pyOrStr (alookup d "error_description") e)))
    ∧ (∀ (d : Dict) (v : String), truthy (alookup d "error") = false →
        alookup d "denied" = some v →
        BaseOAuth2.process_error d = some (.canceled v)) := by
  refine ⟨?_, ?_, ?_, ?_, ?_⟩
  · intro d h
    simp [BaseOAuth1.process_error, h]
  · intro d p h hp
    simp [BaseOAuth1.process_error, h, hp]
  · intro d e h he
    have hne : e ≠ "" := by
      rcases he with he | he <;> subst he <;> decide
    simp [BaseOAuth2.process_error, truthy, h, hne, dget, he]
  · intro d e h hne h1 h2
    have hor : ¬ (e = "denied" ∨ e = "access_denied") := by
      rintro (hh | hh) <;> [exact h1 hh; exact h2 hh]
    simp [BaseOAuth2.process_error, truthy, h, hne, dget, hor]
  · intro d v h hv
    simp [BaseOAuth2.process_error, h, hv]

/-- Witness for C6: the five mappings at the spec's concrete inputs. -/
theorem C6_process_error_mapping_witness :
    BaseOAuth1.process_error [("oauth_problem", "user_refused")] =
      some (.canceled "User refused the access")
    ∧ BaseOAuth1.process_error [("oauth_problem", "x")] =
      some (.unknownError "Error was x")
    ∧ BaseOAuth2.process_error [("error", "access_denied")] = some (.canceled "")
    ∧ BaseOAuth2.process_error [("error", "invalid_grant")] =
      some (.failed "invalid_grant")
    ∧ BaseOAuth2.process_error [("denied", "user denied")] =
      some (.canceled "user denied") := by
  have h := C6_process_error_mapping
  refine ⟨h.1 _ (by decide), ?_, ?_, ?_, ?_⟩
  · have hh := h.2.1 [("oauth_problem", "x")] "x" (by decide) (by decide)
    rw [hh]
    decide
  · have hh := h.2.2.1 [("error", "access_denied")] "access_denied" (by decide)
      (Or.inr rfl)
    rw [hh]
    decide
  · have hh := h.2.2.2.1 [("error", "invalid_grant")] "invalid_grant" (by decide)
      (by decide) (by decide) (by decide)
    rw [hh]
    decide
  · exact h.2.2.2.2 [("denied", "user denied")] "user denied" (by decide) (by decide)

/-! ### C4, C7: `extra_data` -/

/-- C4: evaluating `extra_data` with malformed-arity spec entries (here a
size-4 tuple and an empty tuple): each entry falls through the
`1 <= size <= 3` guard, which has no else branch, so the call returns
normally with only the seeded `access_token` — the entries are silently
skipped, and no error of any kind is produced at any stage. -/
theorem C4_malformed_entry_silently_skipped :
    OAuthAuth.extra_data (some [.malformed 4]) []
      [("access_token", "tok"), ("email", "a@b.com")] =
      [("access_token", some "tok")] ∧
    OAuthAuth.extra_data (some [.malformed 0]) [] [("access_token", "tok")] =
      [("access_token", some "tok")] := by
  decide

theorem alookup_applyEntry_ne (r : Dict) (k : String) (e : OAuthAuth.EDEntry)
    (d : EDict) (h : OAuthAuth.entryAlias e ≠ some k) :
    alookup (OAuthAuth.applyEntry r d e) k = alookup d k := by
  cases e with
  | str n =>
      have hnk : k ≠ n := fun hh => h (by simp [OAuthAuth.entryAlias, hh])
      exact alookup_aset_ne d n k _ hnk
  | tup1 n =>
      have hnk : k ≠ n := fun hh => h (by simp [OAuthAuth.entryAlias, hh])
      exact alookup_aset_ne d n k _ hnk
  | tup2 n a =>
      have hak : k ≠ a := fun hh => h (by simp [OAuthAuth.entryAlias, hh])
      exact alookup_aset_ne d a k _ hak
  | tup3 n a disc =>
      have hak : k ≠ a := fun hh => h (by simp [OAuthAuth.entryAlias, hh])
      simp only [OAuthAuth.applyEntry]
      split
      · rfl
      · exact alookup_aset_ne d a k _ hak
  | malformed n => rfl

theorem isSome_alookup_applyEntry (r : Dict) (k : String) (e : OAuthAuth.EDEntry)
    (d : EDict) (h : (alookup d k).isSome) :
    (alookup (OAuthAuth.applyEntry r d e) k).isSome := by
  cases e with
  | str n => exact isSome_alookup_aset d n k _ h
  | tup1 n => exact isSome_alookup_aset d n k _ h
  | tup2 n a => exact isSome_alookup_aset d a k _ h
  | tup3 n a disc =>
      simp only [OAuthAuth.applyEntry]
      split
      · exact h
      · exact isSome_alookup_aset d a k _ h
  | malformed n => exact h

theorem isSome_alookup_foldl (r : Dict) (k : String) :
    ∀ (names : List OAuthAuth.EDEntry) (d : EDict), (alookup d k).isSome →
      (alookup (names.foldl (OAuthAuth.applyEntry r) d) k).isSome := by
  intro names
  induction names with
  | nil => intro d h; exact h
  | cons e rest ih =>
      intro d h
      exact ih _ (isSome_alookup_applyEntry r k e d h)

theorem alookup_foldl_ne (r : Dict) (k : String) :
    ∀ (names : List OAuthAuth.EDEntry) (d : EDict),
      (∀ e ∈ names, OAuthAuth.entryAlias e ≠ some k) →
      alookup (names.foldl (OAuthAuth.applyEntry r) d) k = alookup d k := by
  intro names
  induction names with
  | nil => intro d _; rfl
  | cons e rest ih =>
      intro d h
      rw [List.foldl_cons, ih _ (fun x hx => h x (List.mem_cons_of_mem e hx)),
        alookup_applyEntry_ne r k e d (h e (List.mem_cons_self e rest))]

/-- C7: `extra_data` always produces a dict containing the key
`access_token`; when no spec entry aliases `access_token` its value is the
response's `access_token` field (empty string when absent); a
`discardIfEmpty` entry whose source value is empty or absent leaves its
alias out of the result, while without `discardIfEmpty` the (possibly
absent or empty) value is stored under the alias, and a non-empty value is
stored even with `discardIfEmpty` set. -/
theorem C7_extra_data_shape :
    (∀ (ed : Option (List OAuthAuth.EDEntry)) (sed : List OAuthAuth.EDEntry)
        (r : Dict),
        (alookup (OAuthAuth.extra_data ed sed r) "access_token").isSome)
    ∧ (∀ (ed : Option (List OAuthAuth.EDEntry)) (sed : List OAuthAuth.EDEntry)
        (r : Dict),
        (∀ e ∈ ed.getD [] ++ sed, OAuthAuth.entryAlias e ≠ some "access_token") →
        alookup (OAuthAuth.extra_data ed sed r) "access_token" =
          some (some (dget r "access_token" "")))
    ∧ (∀ (n a : String) (r : Dict), a ≠ "access_token" →
        truthy (alookup r n) = false →
        alookup (OAuthAuth.extra_data (some [.tup3 n a true]) [] r) a = none)
    ∧ (∀ (n a : String) (r : Dict),
        alookup (OAuthAuth.extra_data (some [.tup3 n a false]) [] r) a =
          some (alookup r n))
    ∧ (∀ (n a : String) (r : Dict) (v : String), alookup r n = some v → v ≠ "" →
        alookup (OAuthAuth.extra_data (some [.tup3 n a true]) [] r) a =
          some (some v)) := by
  refine ⟨?_, ?_, ?_, ?_, ?_⟩
  · intro ed sed r
    simp only [OAuthAuth.extra_data]
    exact isSome_alookup_foldl r "access_token" _ _ (by simp [alookup])
  · intro ed sed r hal
    simp only [OAuthAuth.extra_data]
    rw [alookup_foldl_ne r "access_token" _ _ hal]
    simp [alookup]
  · intro n a r ha hmiss
    have hak : ¬ ("access_token" = a) := fun hh => ha hh.symm
    simp [OAuthAuth.extra_data, OAuthAuth.applyEntry, hmiss, alookup, hak]
  · intro n a r
    simp only [OAuthAuth.extra_data, OAuthAuth.applyEntry, Option.getD_some,
      List.nil_append, List.foldl_cons, List.foldl_nil, Bool.false_and,
      Bool.false_eq_true, if_false]
    exact alookup_aset_self _ a _
  · intro n a r v hv hne
    have htr : truthy (alookup r n) = true := by simp [truthy, hv, hne]
    simp only [OAuthAuth.extra_data, OAuthAuth.applyEntry, Option.getD_some,
      List.append_nil, List.foldl_cons, List.foldl_nil, htr, Bool.not_true,
      Bool.true_and, Bool.false_eq_true, if_false]
    rw [alookup_aset_self _ a _, hv]

/-- Witness for C7: the spec's concrete example
`[("email", "email_addr", discardIfEmpty)]` — an empty `email` omits the
alias, a non-empty one is surfaced next to the seeded `access_token`. -/
theorem C7_extra_data_shape_witness :
    (alookup (OAuthAuth.extra_data (some [.tup3 "email" "email_addr" true]) []
        [("email", "")]) "access_token").isSome
    ∧ alookup (OAuthAuth.extra_data (some [.tup3 "email" "email_addr" true]) []
        [("access_token", "tok"), ("email", "a@b.com")]) "access_token" =
        some (some "tok")
    ∧ alookup (OAuthAuth.extra_data (some [.tup3 "email" "email_addr" true]) []
        [("email", "")]) "email_addr" = none
    ∧ alookup (OAuthAuth.extra_data (some [.tup3 "email" "email_addr" false]) []
        [("email", "")]) "email_addr" = some (some "")
    ∧ alookup (OAuthAuth.extra_data (some [.tup3 "email" "email_addr" true]) []
        [("access_token", "tok"), ("email", "a@b.com")]) "email_addr" =
        some (some "a@b.com") := by
  have h := C7_extra_data_shape
  refine ⟨h.1 _ _ _, ?_, h.2.2.1 "email" "email_addr" _ (by decide) (by decide),
    ?_, h.2.2.2.2 "email" "email_addr" _ "a@b.com" (by decide) (by decide)⟩
  · have hh := h.2.1 (some [.tup3 "email" "email_addr" true]) []
      [("access_token", "tok"), ("email", "a@b.com")] (by decide)
    rw [hh]
    decide
  · have hh := h.2.2.2.1 "email" "email_addr" [("email", "")]
    rw [hh]
    decide

/-! ### C8: the OAuth2 CSRF-state slot in `auth_url` -/

/-- C8: with CSRF protection enabled, `auth_url` mints a fresh
32-character token and stores it when the per-backend slot is empty, and
reuses an existing slot value unchanged, so a repeated call before
completion (with any later randomness) leaves the stored state
identical. -/
theorem C8_auth_url_state_slot (sp rs : Bool) (hon : (sp || rs) = true)
    (random_string : Nat → String)
    (hlen : ∀ n, (random_string n).length = n) :
    (BaseOAuth2.auth_url_state sp rs none random_string =
        (some (BaseOAuth2.state_token random_string),
          some (BaseOAuth2.state_token random_string))
      ∧ (BaseOAuth2.state_token random_string).length = 32)
    ∧ (∀ s, BaseOAuth2.auth_url_state sp rs (some s) random_string = (some s, some s))
    ∧ (∀ rng2 : Nat → String,
        BaseOAuth2.auth_url_state sp rs
            (BaseOAuth2.auth_url_state sp rs none random_string).2 rng2 =
          (some (BaseOAuth2.state_token random_string),
            some (BaseOAuth2.state_token random_string))) := by
  refine ⟨⟨?_, ?_⟩, ?_, ?_⟩
  · simp [BaseOAuth2.auth_url_state, hon]
  · exact hlen 32
  · intro s
    simp [BaseOAuth2.auth_url_state, hon]
  · intro rng2
    simp [BaseOAuth2.auth_url_state, hon]

/-- Witness for C8 at a concrete generator producing `n` copies of `a`. -/
theorem C8_auth_url_state_slot_witness :
    BaseOAuth2.auth_url_state true true none
        (fun n => String.mk (List.replicate n 'a')) =
      (some (String.mk (List.replicate 32 'a')),
        some (String.mk (List.replicate 32 'a')))
    ∧ (String.mk (List.replicate 32 'a')).length = 32
    ∧ BaseOAuth2.auth_url_state true true (some (String.mk (List.replicate 32 'a')))
        (fun n => String.mk (List.replicate n 'b')) =
      (some (String.mk (List.replicate 32 'a')),
        some (String.mk (List.replicate 32 'a'))) := by
  have h := C8_auth_url_state_slot true true (by decide)
    (fun n => String.mk (List.replicate n 'a'))
    (fun n => by simp [String.length])
  exact ⟨h.1.1, h.1.2, h.2.1 (String.mk (List.replicate 32 'a'))⟩

/-! ### C10: the OAuth2 `do_auth` response merge -/

theorem alookup_dict_update_of_not_mem (k : String) :
    ∀ (other d : Dict), (∀ p ∈ other, p.1 ≠ k) →
      alookup (BaseOAuth2.dict_update d other) k = alookup d k := by
  intro other
  induction other with
  | nil => intro d _; rfl
  | cons p rest ih =>
      intro d h
      simp only [BaseOAuth2.dict_update, List.foldl_cons]
      have step := ih (aset d p.1 p.2) (fun q hq => h q (List.mem_cons_of_mem p hq))
      simp only [BaseOAuth2.dict_update] at step
      rw [step, alookup_aset_ne d p.1 k p.2 (Ne.symm (h p (List.mem_cons_self p rest)))]

theorem alookup_dict_update_right (k v : String) :
    ∀ (other : Dict) (d : Dict), (other.map Prod.fst).Nodup →
      alookup other k = some v →
      alookup (BaseOAuth2.dict_update d other) k = some v := by
  intro other
  induction other with
  | nil =>
      intro d _ h
      simp [alookup] at h
  | cons p rest ih =>
      intro d hnd h
      obtain ⟨k1, v1⟩ := p
      have hk1 : k1 ∉ rest.map Prod.fst := (List.nodup_cons.mp (by simpa using hnd)).1
      have hndr : (rest.map Prod.fst).Nodup := (List.nodup_cons.mp (by simpa using hnd)).2
      simp only [BaseOAuth2.dict_update, List.foldl_cons]
      by_cases hk : k1 = k
      · subst hk
        have hv : v1 = v := by simpa [alookup] using h
        subst hv
        have hnotin : ∀ q ∈ rest, q.1 ≠ k1 := fun q hq hh =>
          hk1 (hh ▸ List.mem_map_of_mem Prod.fst hq)
        have step := alookup_dict_update_of_not_mem k1 rest (aset d k1 v1) hnotin
        simp only [BaseOAuth2.dict_update] at step
        rw [step]
        exact alookup_aset_self d k1 v1
      · have hr : alookup rest k = some v := by simpa [alookup, hk] using h
        have := ih (aset d k1 v1) hndr hr
        simpa [BaseOAuth2.dict_update] using this

/-- C10: in the OAuth2 `do_auth` merge, a key the user-data hook shares
with the token-endpoint response ends up with the user-data value; a hook
returning `None` or an empty mapping leaves the token-endpoint response
unchanged. -/
theorem C10_do_auth_merge :
    (∀ (resp ud : Dict) (k v : String), (ud.map Prod.fst).Nodup →
        alookup ud k = some v →
        alookup (BaseOAuth2.do_auth_response (some resp) (some ud)) k = some v)
    ∧ (∀ resp : Dict, BaseOAuth2.do_auth_response (some resp) none = resp)
    ∧ (∀ resp : Dict, BaseOAuth2.do_auth_response (some resp) (some []) = resp) := by
  refine ⟨?_, ?_, ?_⟩
  · intro resp ud k v hnd h
    exact alookup_dict_update_right k v ud resp hnd h
  · intro resp
    rfl
  · intro resp
    rfl

/-- Witness for C10: the hook's value wins on the shared key `k`, and a
`None` hook result leaves the response untouched. -/
theorem C10_do_auth_merge_witness :
    alookup (BaseOAuth2.do_auth_response
        (some [("access_token", "t"), ("k", "old")]) (some [("k", "new")])) "k" =
      some "new"
    ∧ BaseOAuth2.do_auth_response (some [("access_token", "t"), ("k", "old")]) none =
      [("access_token", "t"), ("k", "old")] := by
  exact ⟨C10_do_auth_merge.1 [("access_token", "t"), ("k", "old")] [("k", "new")]
      "k" "new" (by decide) (by decide),
    C10_do_auth_merge.2.1 [("access_token", "t"), ("k", "old")]⟩
